import Mathlib

/-!
Verification of the cloud-storage performance-test scripts.

The definitions below are a shallow embedding of the repository's code:
* `rbd_tests.sh` — the logical-volume (rbd) test runner,
* `disk_tests.sh` — the raw-device/file test runner,
* `execute_remote_test.sh` — the remote-execution orchestrator,
* the viewer's TypeScript types (`types.ts`, `StackLevelT`),
and, where the repository's Python comparison engine is absent from the
sources, a model written from the specification (marked as such).
-/

namespace CloudPerf

/-! ## Workload matrix (FIO_CONFS in rbd_tests.sh and disk_tests.sh) -/

/-- A workload configuration as consumed by `test_config`:
block size `bs`, io depth `io`, read/write pattern `rw`. -/
structure WorkloadConf where
  bs : String
  io : String
  rw : String
deriving DecidableEq, Repr

/-- Bash `${s%%:*}`: remove the longest suffix matching `:*`,
i.e. keep the part before the first colon (unchanged when no colon). -/
def remLongestSuffColon (s : String) : String :=
  String.mk (s.toList.takeWhile (fun c => c ≠ ':'))

/-- Bash `${s##*:}`: remove the longest prefix matching `*:`,
i.e. keep the part after the last colon (unchanged when no colon). -/
def remLongestPrefColon (s : String) : String :=
  String.mk ((s.toList.reverse.takeWhile (fun c => c ≠ ':')).reverse)

/-- Bash `${s#*:}`: remove the shortest prefix matching `*:`,
i.e. drop through the first colon (unchanged when no colon). -/
def remShortestPrefColon (s : String) : String :=
  if s.toList.contains ':' then String.mk ((s.toList.dropWhile (fun c => c ≠ ':')).drop 1)
  else s

/-- Bash `${s%:*}`: remove the shortest suffix matching `:*`,
i.e. keep the part before the last colon (unchanged when no colon). -/
def remShortestSuffColon (s : String) : String :=
  if s.toList.contains ':' then
    String.mk (((s.toList.reverse.dropWhile (fun c => c ≠ ':')).drop 1).reverse)
  else s

/-- The per-config parsing done in both runners' `main` loops:
`bs="${conf%%:*}"`, `rw="${conf##*:}"`, `io="${conf#*:}"; io="${io%:*}"`. -/
def parseConf (conf : String) : WorkloadConf :=
  { bs := remLongestSuffColon conf
    rw := remLongestPrefColon conf
    io := remShortestSuffColon (remShortestPrefColon conf) }

/-- Array `FIO_CONFS` exactly as declared in `rbd_tests.sh`. -/
def FIO_CONFS_rbd : List String :=
  ["4M:16:write", "4k:1:randwrite", "4k:128:randwrite",
   "4M:16:read", "4k:1:randread", "4k:128:randread"]

/-- Array `FIO_CONFS` exactly as declared in `disk_tests.sh`. -/
def FIO_CONFS_disk : List String :=
  ["4M:16:write", "4k:1:randwrite", "4k:128:randwrite",
   "4M:16:read", "4k:1:randread", "4k:128:randread"]

/-- The workload matrix as iterated by `rbd_tests.sh` `main`. -/
def rbdMatrix : List WorkloadConf := FIO_CONFS_rbd.map parseConf

/-- The workload matrix as iterated by `disk_tests.sh` `main`. -/
def diskMatrix : List WorkloadConf := FIO_CONFS_disk.map parseConf

/-- Iterating the matrix: the script re-reads the same array on every
invocation, so iteration `k` yields the same list for every `k`. -/
def matrixIteration (confs : List String) (_k : Nat) : List WorkloadConf :=
  confs.map parseConf

/-! ## Test runner pass loop (`test_config` and `main` in both runners)

`test_config` runs, for pass `i` in `seq num_passes`:
`mkdir -p "ioengine_….bs_….iodepth_….rw_…/run_$i"`, then the fio pipeline
`fio … 2>&1 | tee run_stats.log`, then `gzip`.  `rbd_tests.sh` runs under
`bash -ex` with `set -o pipefail` in `main`, so a nonzero fio exit makes the
pipeline fail and errexit terminates the whole script.  `disk_tests.sh` runs
under `bash -e` but never sets pipefail, so the pipeline's status is `tee`'s
(0) and a fio failure stops nothing.  The boolean `pipefail` selects between
the two. -/

/-- The artifact directory for one pass, from `test_config`:
`outdir="ioengine_${IOENGINE}.bs_${bs}.iodepth_${io}.rw_${rw}/run_$i"`. -/
def outdirName (ioengine : String) (c : WorkloadConf) (i : Nat) : String :=
  "ioengine_" ++ ioengine ++ ".bs_" ++ c.bs ++ ".iodepth_" ++ c.io ++
    ".rw_" ++ c.rw ++ "/run_" ++ toString i

/-- Expansion of `seq num_passes`: the pass numbers 1, 2, …, n in order. -/
def passIndices (n : Nat) : List Nat := (List.range n).map (· + 1)

/-- The pass loop of `test_config`.  `fails c i = true` means the fio
invocation for pass `i` of config `c` exits nonzero.  Each started pass
leaves its artifact directory (mkdir and the tee transcript run before the
failure is observed); under pipefail a failed pipeline triggers errexit and
the rest of the script never runs. -/
def runPasses (pipefail : Bool) (fails : WorkloadConf → Nat → Bool)
    (c : WorkloadConf) : List Nat → List (WorkloadConf × Nat) × Bool
  | [] => ([], true)
  | i :: rest =>
    if pipefail && fails c i then ([(c, i)], false)
    else
      let r := runPasses pipefail fails c rest
      ((c, i) :: r.1, r.2)

/-- The config loop of both runners' `main`: for each config in matrix
order run `test_config`; under errexit an aborted `test_config` terminates
the whole script, so later configs never run. -/
def runMatrix (pipefail : Bool) (fails : WorkloadConf → Nat → Bool)
    (n : Nat) : List WorkloadConf → List (WorkloadConf × Nat) × Bool
  | [] => ([], true)
  | c :: cs =>
    let r := runPasses pipefail fails c (passIndices n)
    if r.2 then
      let rest := runMatrix pipefail fails n cs
      (r.1 ++ rest.1, rest.2)
    else (r.1, false)

/-- The artifact list of a run in which no pass fails: every config
contributes one artifact per pass, in order. -/
def fullArtifacts (n : Nat) : List WorkloadConf → List (WorkloadConf × Nat)
  | [] => []
  | c :: cs => (passIndices n).map (fun i => (c, i)) ++ fullArtifacts n cs

/-- Only config `4M:16:write` fails, on its first pass. -/
def failsFirst (c : WorkloadConf) (i : Nat) : Bool :=
  c == ⟨"4M", "16", "write"⟩ && i == 1

/-- The per-config directory list the spec expects of a failure-free run:
for each config, `run_1 .. run_n` under the derived parent directory. -/
def dirList (ioengine : String) (n : Nat) : List WorkloadConf → List String
  | [] => []
  | c :: cs => (passIndices n).map (outdirName ioengine c) ++ dirList ioengine n cs

end CloudPerf

namespace CloudPerf

theorem runPasses_nopipefail (fails : WorkloadConf → Nat → Bool) (c : WorkloadConf) :
    ∀ l : List Nat, runPasses false fails c l = (l.map (fun i => (c, i)), true) := by
  intro l
  induction l with
  | nil => rfl
  | cons i rest ih => simp [runPasses, ih]

theorem runPasses_prefix (fails : WorkloadConf → Nat → Bool) (c : WorkloadConf) :
    ∀ l : List Nat, ∃ t, (runPasses true fails c l).1 ++ t = l.map (fun i => (c, i)) := by
  intro l
  induction l with
  | nil => exact ⟨[], rfl⟩
  | cons i rest ih =>
    by_cases h : fails c i = true
    · exact ⟨rest.map (fun j => (c, j)), by simp [runPasses, h]⟩
    · obtain ⟨t, ht⟩ := ih
      refine ⟨t, ?_⟩
      simp only [runPasses, h]
      simp [ht]

theorem runPasses_ok (fails : WorkloadConf → Nat → Bool) (c : WorkloadConf) :
    ∀ l : List Nat, (runPasses true fails c l).2 = true →
      (runPasses true fails c l).1 = l.map (fun i => (c, i)) := by
  intro l
  induction l with
  | nil => intro _; rfl
  | cons i rest ih =>
    intro h
    by_cases hf : fails c i = true
    · simp [runPasses, hf] at h
    · simp only [runPasses, hf, Bool.and_false] at h ⊢
      simp at h ⊢
      exact ih h

theorem runMatrix_nopipefail (fails : WorkloadConf → Nat → Bool) (n : Nat) :
    ∀ confs : List WorkloadConf,
      runMatrix false fails n confs = (fullArtifacts n confs, true) := by
  intro confs
  induction confs with
  | nil => rfl
  | cons c cs ih => simp [runMatrix, runPasses_nopipefail, fullArtifacts, ih]

theorem runMatrix_prefix (fails : WorkloadConf → Nat → Bool) (n : Nat) :
    ∀ confs : List WorkloadConf,
      ∃ t, (runMatrix true fails n confs).1 ++ t = fullArtifacts n confs := by
  intro confs
  induction confs with
  | nil => exact ⟨[], rfl⟩
  | cons c cs ih =>
    by_cases h : (runPasses true fails c (passIndices n)).2 = true
    · obtain ⟨t, ht⟩ := ih
      refine ⟨t, ?_⟩
      simp only [runMatrix, h, if_true, fullArtifacts]
      rw [List.append_assoc, ht, runPasses_ok fails c _ h]
    · obtain ⟨t, ht⟩ := runPasses_prefix fails c (passIndices n)
      refine ⟨t ++ fullArtifacts n cs, ?_⟩
      simp only [runMatrix, h, if_false, fullArtifacts, Bool.not_eq_true] at *
      simp [h]
      rw [← List.append_assoc, ht]

theorem runMatrix_nofail (pf : Bool) (n : Nat) :
    ∀ confs : List WorkloadConf,
      runMatrix pf (fun _ _ => false) n confs = (fullArtifacts n confs, true) := by
  intro confs
  induction confs with
  | nil => rfl
  | cons c cs ih =>
    have hp : ∀ l : List Nat,
        runPasses pf (fun _ _ => false) c l = (l.map (fun i => (c, i)), true) := by
      intro l
      induction l with
      | nil => rfl
      | cons i rest ihl => simp [runPasses, ihl]
    simp [runMatrix, hp, fullArtifacts, ih]

theorem fullArtifacts_map_dirList (eng : String) (n : Nat) :
    ∀ confs : List WorkloadConf,
      (fullArtifacts n confs).map (fun a => outdirName eng a.1 a.2) = dirList eng n confs := by
  intro confs
  induction confs with
  | nil => rfl
  | cons c cs ih => simp [fullArtifacts, dirList, List.map_append, List.map_map, ih]

end CloudPerf

namespace CloudPerf

/-- C1: The workload matrix is the fixed ordered six-entry sequence
4M:16:write, 4k:1:randwrite, 4k:128:randwrite, 4M:16:read, 4k:1:randread,
4k:128:randread; both runner modes declare the identical sequence, and every
iteration of the matrix yields the same six configurations in the same order. -/
theorem workload_matrix_fixed_six :
    rbdMatrix =
      [⟨"4M", "16", "write"⟩, ⟨"4k", "1", "randwrite"⟩, ⟨"4k", "128", "randwrite"⟩,
       ⟨"4M", "16", "read"⟩, ⟨"4k", "1", "randread"⟩, ⟨"4k", "128", "randread"⟩]
    ∧ diskMatrix = rbdMatrix
    ∧ rbdMatrix.length = 6
    ∧ ∀ j k : Nat, matrixIteration FIO_CONFS_rbd j = matrixIteration FIO_CONFS_rbd k
        ∧ matrixIteration FIO_CONFS_disk j = matrixIteration FIO_CONFS_disk k := by
  refine ⟨by decide, by decide, by decide, fun j k => ⟨rfl, rfl⟩⟩

/-- C2 counterexample: in the rbd runner (errexit + pipefail), when the very
first pass of the first configuration fails, the whole script terminates:
the run's artifact list is just that one started pass, the later
configuration `4k:1:randwrite` is never executed (zero artifacts), and the
run is aborted — contradicting the claim that every later configuration in
the matrix is still executed. -/
theorem pass_failure_kills_later_configs :
    runMatrix true failsFirst 3 rbdMatrix = ([(⟨"4M", "16", "write"⟩, 1)], false)
    ∧ (runMatrix true failsFirst 3 rbdMatrix).1.filter
        (fun a => a.1 == ⟨"4k", "1", "randwrite"⟩) = [] := by
  exact ⟨by decide, by decide⟩

/-- C2 amended: if one pass exits nonzero, then in the rbd runner (errexit
with pipefail) the remaining passes of that configuration and all later
configurations are aborted, while the artifacts captured up to and
including the failing pass are preserved — the artifact list is always an
initial segment of the failure-free run's artifact list; in the disk runner
the fio exit status is masked by the `tee` pipeline (no pipefail), so
nothing is aborted and every pass of every configuration still runs. -/
theorem runner_failure_semantics (fails : WorkloadConf → Nat → Bool) (n : Nat) :
    runMatrix false fails n diskMatrix = (fullArtifacts n diskMatrix, true)
    ∧ ∃ t, (runMatrix true fails n rbdMatrix).1 ++ t = fullArtifacts n rbdMatrix :=
  ⟨runMatrix_nopipefail fails n diskMatrix, runMatrix_prefix fails n rbdMatrix⟩

/-- C9 counterexample: in the rbd runner with pass count 3, when only the
first configuration's first pass fails, the configuration `4k:1:randwrite`
never fails on any of its passes and yet produces zero pass
subdirectories instead of the claimed three. -/
theorem unfailed_config_zero_dirs :
    ((List.range 3).all (fun k => !failsFirst ⟨"4k", "1", "randwrite"⟩ (k + 1))) = true
    ∧ ((runMatrix true failsFirst 3 rbdMatrix).1.filter
        (fun a => a.1 == ⟨"4k", "1", "randwrite"⟩)).length = 0 := by
  exact ⟨by decide, by decide⟩

/-- C9 amended: in a run where no pass fails, each configuration produces
exactly `n` pass subdirectories named `run_1 .. run_n`, each nested under
the deterministically derived parent
`ioengine_<mode>.bs_<block_size>.iodepth_<queue_depth>.rw_<pattern>`, in
matrix order, for both runner modes; in the rbd runner a failing pass halts
the whole script, so configurations after the failure produce no
subdirectories even though they did not fail. -/
theorem pass_directories_deterministic (n : Nat) :
    ((runMatrix true (fun _ _ => false) n rbdMatrix).1).map
        (fun a => outdirName "rbd" a.1 a.2) = dirList "rbd" n rbdMatrix
    ∧ ((runMatrix false (fun _ _ => false) n diskMatrix).1).map
        (fun a => outdirName "libaio" a.1 a.2) = dirList "libaio" n diskMatrix
    ∧ passIndices n = List.range' 1 n := by
  refine ⟨?_, ?_, ?_⟩
  · rw [runMatrix_nofail, fullArtifacts_map_dirList]
  · rw [runMatrix_nofail, fullArtifacts_map_dirList]
  · simp [passIndices, List.range'_eq_map_range]
    exact fun a _ => Nat.add_comm a 1

end CloudPerf

namespace CloudPerf

/-! ## Stack levels: the orchestrator's dispatch table and the viewer's enum -/

/-- The `declare -A TESTS` dispatch table of `execute_remote_test.sh`,
mapping each stack level to the runner script staged for it. -/
def TESTS : List (String × String) :=
  [("rbd_from_osd", "rbd_tests.sh"), ("rbd_from_hypervisor", "rbd_tests.sh"),
   ("osd_disk", "disk_tests.sh"), ("vm_disk", "disk_tests.sh")]

/-- The values of the viewer's `StackLevelT` enum (`types.ts`): it declares
only `rbd_from_osd`, `rbd_from_hypervisor` and `vm_disk`. -/
def stackLevelTValues : List String :=
  ["rbd_from_osd", "rbd_from_hypervisor", "vm_disk"]

/-- The four stack levels named by the specification. -/
def claimedStackLevels : List String :=
  ["osd_disk", "rbd_from_osd", "rbd_from_hypervisor", "vm_disk"]

/-- The stack levels for which the viewer's `Result` component renders a
`TestData` entry (`Result/index.tsx` reads `tests.rbd_from_hypervisor`,
`tests.rbd_from_osd` and `tests.vm_disk`). -/
def resultComponentLevels : List String :=
  ["rbd_from_hypervisor", "rbd_from_osd", "vm_disk"]

/-! ## Remote-execution orchestrator (`execute_remote_test.sh` `main`) -/

/-- One observable action of the orchestrator, in `main`'s order:
`mkdir -p` of the local stack-level directory, `scp` of the runner script,
the tolerated `chown` of a stale remote results directory, `rm -rf` of the
remote results directory, the remote runner invocation, the post-run
`chown`, the `scp -r` retrieval, and the metadata side-record write. -/
inductive Effect where
  | mkdirLocal (dir : String)
  | stageScript (host script : String)
  | chownStale (host : String)
  | removeResultsDir (host dir : String)
  | invokeRunner (host script : String)
  | chownResults (host : String)
  | retrieveResults (host dest : String)
  | writeMetadata (path : String)
deriving DecidableEq, Repr

/-- Lookup `${TESTS[$stack_level]}`: an unset key expands to the empty string. -/
def lookupTest (stackLevel : String) : String :=
  (TESTS.lookup stackLevel).getD ""

/-- The action sequence `main` performs after parameter validation.  Note
that the invalid-stack-level branch prints its message and calls `help 1`
— which only prints the help text and returns 0; it does not exit — so the
sequence below runs even when `lookupTest` yields `""`. -/
def orchEffects (outdir stackLevel remoteHost : String) : List Effect :=
  let scriptFile := lookupTest stackLevel
  let stackLevelDir := outdir ++ "/" ++ stackLevel
  let resultsDir := stackLevelDir ++ "/" ++ remoteHost
  [Effect.mkdirLocal stackLevelDir,
   Effect.stageScript remoteHost scriptFile,
   Effect.chownStale remoteHost,
   Effect.removeResultsDir remoteHost "perf_test_results",
   Effect.invokeRunner remoteHost scriptFile,
   Effect.chownResults remoteHost,
   Effect.retrieveResults remoteHost resultsDir,
   Effect.writeMetadata (resultsDir ++ "/metadata.json")]

/-- Function `main` of `execute_remote_test.sh` after option parsing: the three
missing-parameter checks each `exit 1` before any directory is created or
remote command issued; past them, the effect sequence runs. -/
def orchMain (outdir stackLevel remoteHost : String) : Except String (List Effect) :=
  if outdir = "" then .error "No outdir passed (--outdir)."
  else if stackLevel = "" then .error "No stack level passed (--stack-level)."
  else if remoteHost = "" then .error "No remote host passed (--remote-host)."
  else .ok (orchEffects outdir stackLevel remoteHost)

/-- The remote results directory over the orchestrator's actions: `prior`
is whatever a previous invocation left there, `newArts` the artifacts the
runner invocation writes.  `rm -rf` empties the directory, the runner
appends its artifacts, and the first retrieval copies the directory's
current contents; the result is what lands in the local results tree. -/
def retrievedTree (prior newArts : List String) : List Effect → Option (List String)
  | [] => none
  | e :: rest =>
    match e with
    | .removeResultsDir _ _ => retrievedTree [] newArts rest
    | .invokeRunner _ _ => retrievedTree (prior ++ newArts) newArts rest
    | .retrieveResults _ _ => some prior
    | _ => retrievedTree prior newArts rest

end CloudPerf

namespace CloudPerf

/-- C3 counterexample: `osd_disk` is a key of the orchestrator's dispatch
table, yet the viewer's `StackLevelT` enum does not admit it — it has
exactly three variants, not four. -/
theorem viewer_enum_missing_osd_disk :
    "osd_disk" ∈ TESTS.map Prod.fst
    ∧ "osd_disk" ∉ stackLevelTValues
    ∧ stackLevelTValues.length = 3 := by
  exact ⟨by decide, by decide, by decide⟩

/-- C3 amended: the remote-execution dispatch table admits exactly the four
stack levels `osd_disk`, `rbd_from_osd`, `rbd_from_hypervisor`, `vm_disk`,
but the viewer's `StackLevelT` enum — and the set of levels the viewer's
`Result` component renders — admits exactly the three of them other than
`osd_disk`. -/
theorem stack_level_keys (k : String) :
    (k ∈ TESTS.map Prod.fst ↔ k ∈ claimedStackLevels)
    ∧ (k ∈ stackLevelTValues ↔ (k ∈ claimedStackLevels ∧ k ≠ "osd_disk"))
    ∧ (k ∈ resultComponentLevels ↔ k ∈ stackLevelTValues) := by
  refine ⟨?_, ?_, ?_⟩
  · simp [TESTS, claimedStackLevels]
    tauto
  · simp [stackLevelTValues, claimedStackLevels]
    constructor
    · rintro (rfl | rfl | rfl) <;> simp
    · rintro ⟨rfl | rfl | rfl | rfl, h⟩ <;> simp_all
  · simp [resultComponentLevels, stackLevelTValues]
    tauto

/-- C5: the three missing-parameter checks fail immediately with no
directory created and no remote command issued; but an invalid stack level
is only reported — `help 1` does not exit — so the orchestrator still
creates the local stack-level directory and proceeds to issue the remote
commands with an empty script name. -/
theorem invalid_stack_level_still_runs :
    orchMain "" "osd_disk" "host1" = .error "No outdir passed (--outdir)."
    ∧ orchMain "out" "" "host1" = .error "No stack level passed (--stack-level)."
    ∧ orchMain "out" "osd_disk" "" = .error "No remote host passed (--remote-host)."
    ∧ lookupTest "bogus" = ""
    ∧ orchMain "out" "bogus" "host1" =
        .ok [Effect.mkdirLocal "out/bogus",
             Effect.stageScript "host1" "",
             Effect.chownStale "host1",
             Effect.removeResultsDir "host1" "perf_test_results",
             Effect.invokeRunner "host1" "",
             Effect.chownResults "host1",
             Effect.retrieveResults "host1" "out/bogus/host1",
             Effect.writeMetadata "out/bogus/host1/metadata.json"] := by
  exact ⟨rfl, rfl, rfl, rfl, rfl⟩

/-- C6: for every invocation, the orchestrator's action sequence removes
the remote results directory before the runner is invoked — in the fixed
order stage, (stale chown,) reset-results-dir, invoke, normalize-ownership,
retrieve — and therefore the retrieved tree is exactly the new invocation's
artifacts, with nothing left over from any prior invocation. -/
theorem remote_rerun_never_mixes (outdir stackLevel remoteHost : String)
    (prior newArts : List String) :
    orchEffects outdir stackLevel remoteHost =
      [Effect.mkdirLocal (outdir ++ "/" ++ stackLevel),
       Effect.stageScript remoteHost (lookupTest stackLevel),
       Effect.chownStale remoteHost,
       Effect.removeResultsDir remoteHost "perf_test_results",
       Effect.invokeRunner remoteHost (lookupTest stackLevel),
       Effect.chownResults remoteHost,
       Effect.retrieveResults remoteHost (outdir ++ "/" ++ stackLevel ++ "/" ++ remoteHost),
       Effect.writeMetadata (outdir ++ "/" ++ stackLevel ++ "/" ++ remoteHost ++ "/metadata.json")]
    ∧ retrievedTree prior newArts (orchEffects outdir stackLevel remoteHost) = some newArts := by
  exact ⟨rfl, rfl⟩

end CloudPerf

namespace CloudPerf

/-! ## rbd image lifecycle (`create_and_populate_image` in `rbd_tests.sh`)
and the fio availability checks of both runners -/

/-- The cluster's images, as (pool, image name) pairs. -/
def rbdRemove (pool name : String) (st : List (String × String)) : List (String × String) :=
  st.filter (fun e => !(e.1 == pool && e.2 == name))

/-- Command `rbd create --pool … --image … --size 10240 --thick-provision`:
fails when an image of that name already exists in the pool. -/
def rbdCreate (pool name : String) (st : List (String × String)) :
    Except String (List (String × String)) :=
  if (pool, name) ∈ st then .error "rbd: create error: image already exists"
  else .ok ((pool, name) :: st)

/-- Function `create_and_populate_image`: `rbd remove … || :` (absence tolerated,
script never aborts here) followed by a thick-provisioned `rbd create`. -/
def create_and_populate_image (imageName pool : String) (st : List (String × String)) :
    Except String (List (String × String)) :=
  rbdCreate pool imageName (rbdRemove pool imageName st)

/-- Function `main` of `rbd_tests.sh` after its parameter checks: it calls
`create_and_populate_image` once and then runs the workload matrix
(errexit + pipefail). -/
def rbdRunnerRun (fails : WorkloadConf → Nat → Bool) (n : Nat)
    (st : List (String × String)) (pool imageName : String) :
    Except String (List (String × String) × (List (WorkloadConf × Nat) × Bool)) :=
  match create_and_populate_image imageName pool st with
  | .error e => .error e
  | .ok st' => .ok (st', runMatrix true fails n rbdMatrix)

/-- The fio-missing message both runners print before `exit 1`. -/
def fioMissingMsg : String :=
  "This test needs fio to be installed on the host, but was not found. Aborting."

/-- Function `main` of `rbd_tests.sh` with its very first action, the
`command -v fio` check, made explicit. -/
def rbdScriptMain (fioAvailable : Bool) (fails : WorkloadConf → Nat → Bool) (n : Nat)
    (st : List (String × String)) (pool imageName : String) :
    Except String (List (String × String) × (List (WorkloadConf × Nat) × Bool)) :=
  if fioAvailable then rbdRunnerRun fails n st pool imageName
  else .error fioMissingMsg

/-- The config loop of `disk_tests.sh` `main`: `test_config` checks
`command -v fio` at its top, before its pass loop, so the check runs before
any workload; `disk_tests.sh` never sets pipefail, so a failing pass aborts
nothing. -/
def diskRunConfigs (fioAvailable : Bool) (fails : WorkloadConf → Nat → Bool) (n : Nat) :
    List WorkloadConf → Except String (List (WorkloadConf × Nat))
  | [] => .ok []
  | c :: cs =>
    if fioAvailable then
      match diskRunConfigs fioAvailable fails n cs with
      | .error e => .error e
      | .ok rest => .ok ((runPasses false fails c (passIndices n)).1 ++ rest)
    else .error fioMissingMsg

/-- Function `main` of `disk_tests.sh` over the full matrix. -/
def diskScriptMain (fioAvailable : Bool) (fails : WorkloadConf → Nat → Bool) (n : Nat) :
    Except String (List (WorkloadConf × Nat)) :=
  diskRunConfigs fioAvailable fails n diskMatrix

end CloudPerf

namespace CloudPerf

theorem not_mem_rbdRemove (pool name : String) (st : List (String × String)) :
    (pool, name) ∉ rbdRemove pool name st := by
  intro h
  simp [rbdRemove, List.mem_filter] at h

theorem create_and_populate_ok (imageName pool : String) (st : List (String × String)) :
    create_and_populate_image imageName pool st =
      .ok ((pool, imageName) :: rbdRemove pool imageName st) := by
  simp [create_and_populate_image, rbdCreate, not_mem_rbdRemove]

/-- C7: the runner removes any pre-existing volume of the configured name
(tolerating its absence — `rbd remove` never aborts the script), then
thick-provisions a fresh one, once, before the workload matrix runs; the
provisioning step succeeds from every starting state, so invoking the
runner twice in a row never fails because of a pre-existing volume. -/
theorem volume_create_idempotent (fails : WorkloadConf → Nat → Bool) (n : Nat)
    (st : List (String × String)) (pool imageName : String) :
    ∃ st₁,
      rbdRunnerRun fails n st pool imageName =
          .ok (st₁, runMatrix true fails n rbdMatrix)
      ∧ (pool, imageName) ∈ st₁
      ∧ ∃ st₂,
          rbdRunnerRun fails n st₁ pool imageName =
            .ok (st₂, runMatrix true fails n rbdMatrix) := by
  refine ⟨(pool, imageName) :: rbdRemove pool imageName st, ?_, ?_, ?_⟩
  · simp [rbdRunnerRun, create_and_populate_ok]
  · exact List.mem_cons_self _ _
  · exact ⟨(pool, imageName) ::
      rbdRemove pool imageName ((pool, imageName) :: rbdRemove pool imageName st),
      by simp [rbdRunnerRun, create_and_populate_ok]⟩

theorem diskRunConfigs_available (fails : WorkloadConf → Nat → Bool) (n : Nat) :
    ∀ confs : List WorkloadConf,
      diskRunConfigs true fails n confs = .ok (fullArtifacts n confs) := by
  intro confs
  induction confs with
  | nil => rfl
  | cons c cs ih =>
    simp [diskRunConfigs, ih, fullArtifacts, runPasses_nopipefail]

/-- C8: when fio is not available on the executing host, both runners stop
with the missing-dependency message before any workload runs (the rbd
runner checks at the top of `main`; the disk runner checks at the top of
`test_config`, before its pass loop, so no pass of any configuration is
executed); when fio is available the check never fires — the rbd runner
proceeds exactly as `rbdRunnerRun`, and the disk runner executes the full
matrix. -/
theorem fio_dependency_check (fails : WorkloadConf → Nat → Bool) (n : Nat)
    (st : List (String × String)) (pool imageName : String) (fio : Bool) :
    (fio = false →
      rbdScriptMain fio fails n st pool imageName = .error fioMissingMsg
      ∧ diskScriptMain fio fails n = .error fioMissingMsg)
    ∧ (fio = true →
      rbdScriptMain fio fails n st pool imageName = rbdRunnerRun fails n st pool imageName
      ∧ diskScriptMain fio fails n = .ok (fullArtifacts n diskMatrix)) := by
  constructor
  · rintro rfl
    refine ⟨rfl, ?_⟩
    simp [diskScriptMain, diskMatrix, diskRunConfigs]
  · rintro rfl
    exact ⟨rfl, diskRunConfigs_available fails n diskMatrix⟩

/-- Evaluation of the fio checks at a concrete input: with fio absent both
runners report the missing dependency and produce nothing, and with fio
present the rbd runner's check does not fire. -/
theorem fio_dependency_check_witness :
    rbdScriptMain false (fun _ _ => false) 3 [] "eqiad" "fio_test" = .error fioMissingMsg
    ∧ diskScriptMain false (fun _ _ => false) 3 = .error fioMissingMsg
    ∧ rbdScriptMain true (fun _ _ => false) 3 [] "eqiad" "fio_test" =
        rbdRunnerRun (fun _ _ => false) 3 [] "eqiad" "fio_test" := by
  refine ⟨((fio_dependency_check (fun _ _ => false) 3 [] "eqiad" "fio_test" false).1 rfl).1,
    ((fio_dependency_check (fun _ _ => false) 3 [] "eqiad" "fio_test" false).1 rfl).2,
    ((fio_dependency_check (fun _ _ => false) 3 [] "eqiad" "fio_test" true).2 rfl).1⟩

end CloudPerf

namespace CloudPerf

/-! ## Option parsing in `disk_tests.sh` `main`

`getopt -o h --long help,file-path:,outdir:,stack-level:,num-passes: -- "$@"`
normalizes the arguments into a token list ending in `--`; the
`while true; do case "$1" in … esac; done` loop then consumes it.  The
`case` has branches only for `-h|--help`, `--file-path`, `--num-passes`,
`--outdir` and `--`; a token matching none of them is not shifted, so the
loop re-examines the same `$1` forever. -/

/-- The long options registered with getopt in `disk_tests.sh`. -/
def diskGetoptLongOpts : List String :=
  ["help", "file-path:", "outdir:", "stack-level:", "num-passes:"]

/-- The loop's mutable locals with their `main` defaults
(`num_passes="$NUM_PASSES"`, `outdir="$OUTDIR"`, `file_path` unset). -/
structure DiskOpts where
  filePath : String
  numPasses : String
  outdir : String
deriving DecidableEq, Repr

def diskOptDefaults : DiskOpts :=
  { filePath := "", numPasses := "3", outdir := "libaio_tests_results" }

/-- How the loop ends: `exit 0` from the help branch, or `break` at `--`. -/
inductive ParseOutcome where
  | helpExit
  | done (opts : DiskOpts)
deriving DecidableEq, Repr

/-- The `while true; do case "$1" in … esac; done` loop of `disk_tests.sh`,
fuel-indexed: `none` means the given number of iterations did not finish
the loop.  The final branch is the source's behavior on an unmatched
token: no `case` arm fires, nothing is shifted, and the loop repeats on
the very same argument list. -/
def diskParseLoop (fuel : Nat) (opts : DiskOpts) (args : List String) : Option ParseOutcome :=
  match fuel with
  | 0 => none
  | fuel + 1 =>
    match args with
    | [] => none
    | a :: rest =>
      if a = "-h" ∨ a = "--help" then some .helpExit
      else if a = "--file-path" then
        diskParseLoop fuel { opts with filePath := rest.headD "" } (rest.drop 1)
      else if a = "--num-passes" then
        diskParseLoop fuel { opts with numPasses := rest.headD "" } (rest.drop 1)
      else if a = "--outdir" then
        diskParseLoop fuel { opts with outdir := rest.headD "" } (rest.drop 1)
      else if a = "--" then some (.done opts)
      else diskParseLoop fuel opts (a :: rest)

end CloudPerf

namespace CloudPerf

/-- C10: `stack-level:` is registered with getopt, so
`--stack-level osd_disk` is accepted and normalized into the token list —
but the parsing loop has no branch for it and no default, so no amount of
fuel makes the loop finish on that input: it repeats forever on the
unhandled token instead of reaching the end of the argument list.  On a
vector without `--stack-level` the same loop terminates normally. -/
theorem getopt_loop_hangs_on_stack_level :
    "stack-level:" ∈ diskGetoptLongOpts
    ∧ (∀ (fuel : Nat) (opts : DiskOpts),
        diskParseLoop fuel opts ["--stack-level", "osd_disk", "--"] = none)
    ∧ diskParseLoop 2 diskOptDefaults ["--file-path", "/dev/sdc", "--"] =
        some (.done { diskOptDefaults with filePath := "/dev/sdc" }) := by
  refine ⟨by decide, ?_, by decide⟩
  intro fuel
  induction fuel with
  | zero => intro opts; rfl
  | succ fuel ih =>
    intro opts
    simpa [diskParseLoop] using ih opts

end CloudPerf

namespace CloudPerf

/-! ## Comparison engine

The comparison engine (`generate_reports.py`) is not among the sources;
the definitions in this section are written from the specification and are
marked as such. -/

/-- Modelled from the spec: the qualitative verdict of a metric delta,
`direction ∈ {improved, regressed, unchanged}` (the comparison engine,
`generate_reports.py`, is absent from the sources). -/
inductive Direction where
  | improved
  | regressed
  | unchanged
deriving DecidableEq, Repr

/-- Modelled from the spec: the metric families the engine compares —
latency percentiles (lower is better), bandwidth and IOPS (higher is
better). -/
inductive MetricKind where
  | latency
  | bandwidth
  | iops
deriving DecidableEq, Repr

/-- Modelled from the spec: `MetricDelta = {metric_name, before_value,
after_value, pct_change, direction}`. -/
structure MetricDelta where
  metric_name : String
  before_value : ℚ
  after_value : ℚ
  pct_change : ℚ
  direction : Direction
deriving DecidableEq, Repr

/-- Modelled from the spec: `pct_change = (after - before) / before`. -/
def pctChange (before after : ℚ) : ℚ := (after - before) / before

/-- Modelled from the spec: for latency lower is improved, for
bandwidth/IOPS higher is improved, and a delta within the noise threshold
(e.g. ±3%, with "at threshold" counting as unchanged) is `unchanged`. -/
def classifyDelta (kind : MetricKind) (threshold pct : ℚ) : Direction :=
  if abs pct ≤ threshold then .unchanged
  else
    match kind with
    | .latency => if pct < 0 then .improved else .regressed
    | .bandwidth => if pct > 0 then .improved else .regressed
    | .iops => if pct > 0 then .improved else .regressed

/-- Modelled from the spec: one aligned per-metric delta. -/
def mkDelta (kind : MetricKind) (threshold : ℚ) (name : String) (b a : ℚ) : MetricDelta :=
  { metric_name := name, before_value := b, after_value := a,
    pct_change := pctChange b a,
    direction := classifyDelta kind threshold (pctChange b a) }

/-- Modelled from the spec: a ResultSet's measured values, as a map from
(stack level, workload config, metric name) to the scalar summary value,
with the key sets listed for iteration; `none` marks a missing
measurement. -/
structure ResultSetM where
  levels : List String
  configs : List WorkloadConf
  metrics : List String
  value : String → WorkloadConf → String → Option ℚ

/-- Modelled from the spec: the alignment keys `(stack_level,
workload_config, metric)` a comparison iterates. -/
def keyTriples (R : ResultSetM) : List (String × WorkloadConf × String) :=
  R.levels.flatMap (fun l =>
    R.configs.flatMap (fun c =>
      R.metrics.map (fun m => (l, c, m))))

/-- Modelled from the spec: the engine aligns two ResultSets by
`(stack_level, workload_config, metric)` and emits a `MetricDelta` for
every key measured on both sides (keys present on one side only are
surfaced as alignment gaps, not as deltas). -/
def compareSets (threshold : ℚ) (kindOf : String → MetricKind)
    (before after : ResultSetM) : List MetricDelta :=
  (keyTriples before).filterMap (fun t =>
    match before.value t.1 t.2.1 t.2.2, after.value t.1 t.2.1 t.2.2 with
    | some b, some a => some (mkDelta (kindOf t.2.2) threshold t.2.2 b a)
    | _, _ => none)

/-- A one-measurement ResultSet used to evaluate the engine. -/
def sampleResultSet : ResultSetM :=
  { levels := ["rbd_from_osd"]
    configs := [⟨"4M", "16", "write"⟩]
    metrics := ["clat_p99"]
    value := fun _ _ _ => some (104 / 10 : ℚ) }

/-- Every metric name of the sample is a latency percentile. -/
def sampleKind : String → MetricKind := fun _ => .latency

end CloudPerf

namespace CloudPerf

/-- C4: comparing a ResultSet against itself yields, for every stack
level, workload configuration and metric measured in it, a MetricDelta in
the output, and every emitted MetricDelta has
`pct_change = (after - before) / before = 0` and `direction = unchanged`
(for any nonnegative noise threshold). -/
theorem compare_self_unchanged (R : ResultSetM) (threshold : ℚ)
    (kindOf : String → MetricKind) (h : 0 ≤ threshold) :
    (∀ δ ∈ compareSets threshold kindOf R R,
      δ.pct_change = 0 ∧ δ.direction = .unchanged)
    ∧ ∀ t ∈ keyTriples R, ∀ v : ℚ, R.value t.1 t.2.1 t.2.2 = some v →
        mkDelta (kindOf t.2.2) threshold t.2.2 v v ∈ compareSets threshold kindOf R R := by
  constructor
  · intro δ hδ
    rw [compareSets, List.mem_filterMap] at hδ
    obtain ⟨t, _, ht⟩ := hδ
    cases hval : R.value t.1 t.2.1 t.2.2 with
    | none => rw [hval] at ht; exact absurd ht (by simp)
    | some v =>
      rw [hval] at ht
      simp only [Option.some.injEq] at ht
      subst ht
      constructor
      · simp [mkDelta, pctChange]
      · simp [mkDelta, classifyDelta, pctChange, h]
  · intro t htm v hv
    rw [compareSets, List.mem_filterMap]
    exact ⟨t, htm, by rw [hv]⟩

/-- Evaluation of the self-comparison at a concrete ResultSet with a
3% noise threshold: the single aligned latency delta is in the output and
has `pct_change = 0`, `direction = unchanged`. -/
theorem compare_self_unchanged_witness :
    (0 : ℚ) ≤ 3 / 100
    ∧ mkDelta .latency (3 / 100) "clat_p99" (104 / 10) (104 / 10) ∈
        compareSets (3 / 100) sampleKind sampleResultSet sampleResultSet
    ∧ (mkDelta .latency (3 / 100) "clat_p99" (104 / 10) (104 / 10)).pct_change = 0
    ∧ (mkDelta .latency (3 / 100) "clat_p99" (104 / 10) (104 / 10)).direction = .unchanged := by
  have hmem : mkDelta .latency (3 / 100) "clat_p99" (104 / 10) (104 / 10) ∈
      compareSets (3 / 100) sampleKind sampleResultSet sampleResultSet :=
    (compare_self_unchanged sampleResultSet (3 / 100) sampleKind (by norm_num)).2
      ("rbd_from_osd", ⟨"4M", "16", "write"⟩, "clat_p99") (by decide) (104 / 10) rfl
  have hprop := (compare_self_unchanged sampleResultSet (3 / 100) sampleKind (by norm_num)).1
    _ hmem
  exact ⟨by norm_num, hmem, hprop.1, hprop.2⟩

end CloudPerf
